import Mathlib

/-!
Shallow embedding of the domain-probing core of the `website-finder`
repository: the error classifier, browser pool, task scheduler and stream
writer of `src/app/api/search/route.ts`, and the result aggregator of
`src/context/SearchContext.tsx`.
-/

namespace WebsiteFinder

/-- `StatusLog.type` values (`'info' | 'success' | 'error' | 'warning'`). -/
inductive LogType where
  | info | success | error | warning
deriving DecidableEq, Repr

/-- `StatusLog` from `SearchContext.tsx` / `route.ts`. -/
structure StatusLog where
  timestamp : Nat
  message : String
  type : LogType
deriving DecidableEq, Repr

/-- `DomainStatus` union from `route.ts` / `SearchContext.tsx`. -/
inductive DomainStatus where
  | loading | success | timeout | connection_refused
  | dns_error | ssl_error | invalid_response | internal_error
deriving DecidableEq, Repr

/-- Executable "is `needle` a leading segment of `hay`" on char lists,
modelling JavaScript `String.prototype.includes` at each offset. -/
def listStartsWith : List Char → List Char → Bool
  | [], _ => true
  | _ :: _, [] => false
  | a :: as, b :: bs => a == b && listStartsWith as bs

/-- Executable substring containment on char lists. -/
def listContains (needle : List Char) : List Char → Bool
  | [] => listStartsWith needle []
  | b :: bs => listStartsWith needle (b :: bs) || listContains needle bs

/-- JavaScript `errorMessage.includes(pat)`. -/
def strIncludes (s pat : String) : Bool :=
  listContains pat.data s.data

/-- JavaScript `error.message.toLowerCase()` (ASCII lowering, which is all
the classifier's patterns need). -/
def lowerString (s : String) : String :=
  ⟨s.data.map Char.toLower⟩

/-- Return type of `getErrorDetails` in `route.ts`. -/
structure ErrorDetails where
  status : DomainStatus
  message : String
  code : String
deriving DecidableEq, Repr

/-- `getErrorDetails` from `route.ts` lines 35-83, translated clause for
clause.  The input is the JavaScript `Error`'s `message` string. -/
def getErrorDetails (errMsg : String) : ErrorDetails :=
  let errorMessage := lowerString errMsg
  if errMsg = "Timeout" then
    ⟨DomainStatus.timeout, "Request timed out after 35 seconds", "TIMEOUT"⟩
  else if strIncludes errorMessage "net::err_connection_refused" then
    ⟨DomainStatus.connection_refused, "Connection refused by the server", "CONNECTION_REFUSED"⟩
  else if strIncludes errorMessage "net::err_name_not_resolved" then
    ⟨DomainStatus.dns_error, "Domain name could not be resolved", "DNS_ERROR"⟩
  else if strIncludes errorMessage "net::err_cert_" || strIncludes errorMessage "ssl" then
    ⟨DomainStatus.ssl_error, "SSL/TLS certificate error", "SSL_ERROR"⟩
  else if strIncludes errorMessage "net::err_invalid_response" then
    ⟨DomainStatus.invalid_response, "Server returned an invalid response", "INVALID_RESPONSE"⟩
  else
    ⟨DomainStatus.internal_error, "Failed to connect to domain", "UNKNOWN_ERROR"⟩

example : getErrorDetails "Timeout" =
    ⟨DomainStatus.timeout, "Request timed out after 35 seconds", "TIMEOUT"⟩ := by decide

example : getErrorDetails "net::ERR_NAME_NOT_RESOLVED at https://x.dev" =
    ⟨DomainStatus.dns_error, "Domain name could not be resolved", "DNS_ERROR"⟩ := by decide

example : getErrorDetails "weird ssl plus net::err_connection_refused" =
    ⟨DomainStatus.connection_refused, "Connection refused by the server", "CONNECTION_REFUSED"⟩ := by
  decide

example : getErrorDetails "something else entirely" =
    ⟨DomainStatus.internal_error, "Failed to connect to domain", "UNKNOWN_ERROR"⟩ := by decide

/-- C2: `getErrorDetails` is a deterministic total function: it maps every
failure message to exactly one status/message/code triple, applying the
rules in priority order (deadline expiry, then connection refusal, then
name-resolution failure, then certificate/TLS failure, then invalid server
response), and every message matching none of the rules maps to
`internal_error`/`UNKNOWN_ERROR`, never left unclassified. -/
theorem getErrorDetails_total_priority (e : String) :
    (e = "Timeout" →
      getErrorDetails e =
        ⟨DomainStatus.timeout, "Request timed out after 35 seconds", "TIMEOUT"⟩) ∧
    (e ≠ "Timeout" →
      strIncludes (lowerString e) "net::err_connection_refused" = true →
      getErrorDetails e =
        ⟨DomainStatus.connection_refused, "Connection refused by the server",
          "CONNECTION_REFUSED"⟩) ∧
    (e ≠ "Timeout" →
      strIncludes (lowerString e) "net::err_connection_refused" = false →
      strIncludes (lowerString e) "net::err_name_not_resolved" = true →
      getErrorDetails e =
        ⟨DomainStatus.dns_error, "Domain name could not be resolved", "DNS_ERROR"⟩) ∧
    (e ≠ "Timeout" →
      strIncludes (lowerString e) "net::err_connection_refused" = false →
      strIncludes (lowerString e) "net::err_name_not_resolved" = false →
      (strIncludes (lowerString e) "net::err_cert_" = true ∨
        strIncludes (lowerString e) "ssl" = true) →
      getErrorDetails e =
        ⟨DomainStatus.ssl_error, "SSL/TLS certificate error", "SSL_ERROR"⟩) ∧
    (e ≠ "Timeout" →
      strIncludes (lowerString e) "net::err_connection_refused" = false →
      strIncludes (lowerString e) "net::err_name_not_resolved" = false →
      strIncludes (lowerString e) "net::err_cert_" = false →
      strIncludes (lowerString e) "ssl" = false →
      strIncludes (lowerString e) "net::err_invalid_response" = true →
      getErrorDetails e =
        ⟨DomainStatus.invalid_response, "Server returned an invalid response",
          "INVALID_RESPONSE"⟩) ∧
    (e ≠ "Timeout" →
      strIncludes (lowerString e) "net::err_connection_refused" = false →
      strIncludes (lowerString e) "net::err_name_not_resolved" = false →
      strIncludes (lowerString e) "net::err_cert_" = false →
      strIncludes (lowerString e) "ssl" = false →
      strIncludes (lowerString e) "net::err_invalid_response" = false →
      getErrorDetails e =
        ⟨DomainStatus.internal_error, "Failed to connect to domain", "UNKNOWN_ERROR"⟩) ∧
    getErrorDetails e ∈
      [⟨DomainStatus.timeout, "Request timed out after 35 seconds", "TIMEOUT"⟩,
        ⟨DomainStatus.connection_refused, "Connection refused by the server",
          "CONNECTION_REFUSED"⟩,
        ⟨DomainStatus.dns_error, "Domain name could not be resolved", "DNS_ERROR"⟩,
        ⟨DomainStatus.ssl_error, "SSL/TLS certificate error", "SSL_ERROR"⟩,
        ⟨DomainStatus.invalid_response, "Server returned an invalid response",
          "INVALID_RESPONSE"⟩,
        (⟨DomainStatus.internal_error, "Failed to connect to domain",
          "UNKNOWN_ERROR"⟩ : ErrorDetails)] := by
  refine ⟨?_, ?_, ?_, ?_, ?_, ?_, ?_⟩
  · intro h1; simp [getErrorDetails, h1]
  · intro h1 h2; simp [getErrorDetails, h1, h2]
  · intro h1 h2 h3; simp [getErrorDetails, h1, h2, h3]
  · intro h1 h2 h3 h4
    rcases h4 with h4 | h4 <;> simp [getErrorDetails, h1, h2, h3, h4]
  · intro h1 h2 h3 h4 h5 h6; simp [getErrorDetails, h1, h2, h3, h4, h5, h6]
  · intro h1 h2 h3 h4 h5 h6; simp [getErrorDetails, h1, h2, h3, h4, h5, h6]
  · by_cases h1 : e = "Timeout"
    · simp [getErrorDetails, h1]
    · cases hc : strIncludes (lowerString e) "net::err_connection_refused" <;>
        cases hd : strIncludes (lowerString e) "net::err_name_not_resolved" <;>
        cases hce : strIncludes (lowerString e) "net::err_cert_" <;>
        cases hs : strIncludes (lowerString e) "ssl" <;>
        cases hi : strIncludes (lowerString e) "net::err_invalid_response" <;>
        simp [getErrorDetails, h1, hc, hd, hce, hs, hi]

/-- Witness for C2: the priority and fall-through clauses at concrete
inputs. -/
theorem getErrorDetails_total_priority_witness :
    getErrorDetails "page broke for no reason" =
        ⟨DomainStatus.internal_error, "Failed to connect to domain", "UNKNOWN_ERROR"⟩ ∧
      getErrorDetails "net::ERR_CONNECTION_REFUSED (https://a.com)" =
        ⟨DomainStatus.connection_refused, "Connection refused by the server",
          "CONNECTION_REFUSED"⟩ :=
  ⟨(getErrorDetails_total_priority "page broke for no reason").2.2.2.2.2.1
      (by decide) (by decide) (by decide) (by decide) (by decide) (by decide),
    (getErrorDetails_total_priority "net::ERR_CONNECTION_REFUSED (https://a.com)").2.1
      (by decide) (by decide)⟩

/-! ## Result aggregator (`SearchContext.tsx`) -/

/-- `DomainResult` from `SearchContext.tsx`.  Optional (`?:`) fields are
`Option`-typed; required string fields keep their `string` type. -/
structure DomainResult where
  domain : String
  title : String
  screenshot : String
  favicon : Option String
  status : DomainStatus
  timestamp : Nat
  logs : List StatusLog
  responseTime : Option Nat
  error : Option String
  errorCode : Option String
  isHighPriority : Bool
deriving DecidableEq, Repr

/-- `Partial<DomainResult>` as received by `updateResult`.  For
`title`/`screenshot`/`favicon` the merge uses `??`, which treats a key
that is absent and a key that is present with value `undefined`
identically, so a single `Option` layer suffices (`none` = absent or
`undefined`).  For `error`/`errorCode`/`responseTime` the merge is the
plain object spread, which distinguishes an absent key (keep the old
value) from a key explicitly set to `undefined` (clear the old value) —
as `recheckDomain` does — so those fields carry two `Option` layers:
the outer layer is key presence, the inner layer is the value or
`undefined`. -/
structure ResultPatch where
  domain : Option String
  status : Option DomainStatus
  title : Option String
  screenshot : Option String
  favicon : Option String
  timestamp : Option Nat
  logs : Option (List StatusLog)
  responseTime : Option (Option Nat)
  error : Option (Option String)
  errorCode : Option (Option String)
  isHighPriority : Option Bool
deriving DecidableEq, Repr

/-- The empty patch (an update object with no keys). -/
def ResultPatch.empty : ResultPatch :=
  ⟨none, none, none, none, none, none, none, none, none, none, none⟩

/-- The record-level merge performed by `updateResult`
(`SearchContext.tsx` lines 100-111): spread the existing record, spread
the update, then re-apply `title`/`screenshot`/`favicon` through `??`
and append `updates.logs || []` to the existing log history. -/
def applyPatch (r : DomainResult) (u : ResultPatch) : DomainResult :=
  { domain := u.domain.getD r.domain
    status := u.status.getD r.status
    title := u.title.getD r.title
    screenshot := u.screenshot.getD r.screenshot
    favicon := match u.favicon with
      | some v => some v
      | none => r.favicon
    timestamp := u.timestamp.getD r.timestamp
    logs := r.logs ++ u.logs.getD []
    responseTime := match u.responseTime with
      | some v => v
      | none => r.responseTime
    error := match u.error with
      | some v => v
      | none => r.error
    errorCode := match u.errorCode with
      | some v => v
      | none => r.errorCode
    isHighPriority := u.isHighPriority.getD r.isHighPriority }

/-- `updateResult` from `SearchContext.tsx` lines 91-114: locate the first
record whose `domain` matches and merge the patch into it; if no record
matches, the list is unchanged. -/
def updateResult (results : List DomainResult) (domain : String) (u : ResultPatch) :
    List DomainResult :=
  match results.findIdx? (fun r => r.domain == domain) with
  | none => results
  | some i =>
    match results[i]? with
    | none => results
    | some r => results.set i (applyPatch r u)

/-- The incoming argument of `addResult`.  It is typed `DomainResult` in
the source, but the values actually passed are parsed wire lines, so any
field other than `domain` may be missing at runtime; missing fields are
modelled as `none`. -/
structure IncomingResult where
  domain : String
  status : Option DomainStatus
  title : Option String
  screenshot : Option String
  favicon : Option String
  timestamp : Option Nat
  logs : Option (List StatusLog)
  responseTime : Option Nat
  error : Option String
  errorCode : Option String
  isHighPriority : Option Bool
deriving DecidableEq, Repr

/-- The merge branch of `addResult` (`SearchContext.tsx` lines 65-77):
`{ ...existing, ...result, logs: [...existing.logs, ...(result.logs || [])] }`.
Every key present in the incoming object overwrites the existing value
(there is no `??` protection here), and the logs are appended. -/
def mergeIncoming (r : DomainResult) (u : IncomingResult) : DomainResult :=
  { domain := u.domain
    status := u.status.getD r.status
    title := u.title.getD r.title
    screenshot := u.screenshot.getD r.screenshot
    favicon := match u.favicon with
      | some v => some v
      | none => r.favicon
    timestamp := u.timestamp.getD r.timestamp
    logs := r.logs ++ u.logs.getD []
    responseTime := match u.responseTime with
      | some v => some v
      | none => r.responseTime
    error := match u.error with
      | some v => some v
      | none => r.error
    errorCode := match u.errorCode with
      | some v => some v
      | none => r.errorCode
    isHighPriority := u.isHighPriority.getD r.isHighPriority }

/-- The synthetic log entry `addResult` writes on record creation
(`SearchContext.tsx` lines 82-86). -/
def startingLog (now : Nat) : StatusLog :=
  ⟨now, "Starting domain check...", LogType.info⟩

/-- The creation branch of `addResult` (`SearchContext.tsx` lines 79-87):
`{ ...result, timestamp: Date.now(), logs: [starting] }`.  The incoming
update's own `logs` array is replaced by the single synthetic entry.
Required fields that the wire line did not carry are `undefined` at
runtime; the embedding defaults them (the server's first update for a
domain always carries `status`/`title`/`screenshot`/`isHighPriority`). -/
def newRecord (now : Nat) (u : IncomingResult) : DomainResult :=
  { domain := u.domain
    status := u.status.getD DomainStatus.loading
    title := u.title.getD ""
    screenshot := u.screenshot.getD ""
    favicon := u.favicon
    timestamp := now
    logs := [startingLog now]
    responseTime := u.responseTime
    error := u.error
    errorCode := u.errorCode
    isHighPriority := u.isHighPriority.getD false }

/-- `addResult` from `SearchContext.tsx` lines 61-89. -/
def addResult (results : List DomainResult) (now : Nat) (u : IncomingResult) :
    List DomainResult :=
  match results.findIdx? (fun r => r.domain == u.domain) with
  | some i =>
    match results[i]? with
    | none => results
    | some r => results.set i (mergeIncoming r u)
  | none => results ++ [newRecord now u]

/-- Folding a sequence of updates for one domain through `updateResult`'s
record-level merge. -/
def applyPatches (r : DomainResult) (us : List ResultPatch) : DomainResult :=
  us.foldl applyPatch r

/-- The value carried by the last patch in `us` for which `f` is present,
if any (search from the right). -/
def lastSupplied {α : Type} (f : ResultPatch → Option α) : List ResultPatch → Option α
  | [] => none
  | u :: us =>
    match lastSupplied f us with
    | some v => some v
    | none => f u

/-- Any field whose single-step merge is "last present value wins"
satisfies last-writer-wins across a whole update sequence. -/
theorem applyPatches_last_writer {α : Type} (f : ResultPatch → Option α)
    (g : DomainResult → α)
    (hg : ∀ r u, g (applyPatch r u) = (f u).getD (g r)) :
    ∀ (us : List ResultPatch) (r : DomainResult),
      g (applyPatches r us) = (lastSupplied f us).getD (g r) := by
  intro us
  induction us with
  | nil => intro r; rfl
  | cons u us ih =>
    intro r
    show g (applyPatches (applyPatch r u) us) = _
    rw [ih]
    cases h : lastSupplied f us with
    | some v => simp [lastSupplied, h]
    | none => simp [lastSupplied, h, hg]

/-- A canonical record that has already captured a non-empty screenshot,
title and favicon. -/
def capturedRecord : DomainResult :=
  ⟨"a.com", "Welcome", "data:image/jpeg;base64,abc", some "fav.ico",
    DomainStatus.success, 1000, [], some 120, none, none, true⟩

/-- An update that explicitly supplies empty strings for the three
retained fields (as the server's terminal failure updates do). -/
def emptyStringPatch : ResultPatch :=
  ⟨none, none, some "", some "", some "", none, none, none, none, none, none⟩

/-- C1 counterexample: an update whose `title`/`screenshot`/`favicon` are
explicit empty strings erases the previously captured non-empty values
(outside any recheck reset), so empty-string updates are not ignored by
the aggregator's merge. -/
theorem updateResult_empty_string_erases :
    capturedRecord.screenshot = "data:image/jpeg;base64,abc" ∧
      capturedRecord.title = "Welcome" ∧
      updateResult [capturedRecord] "a.com" emptyStringPatch =
        [{ capturedRecord with title := "", screenshot := "", favicon := some "" }] := by
  refine ⟨rfl, rfl, ?_⟩
  decide

/-- C1 amended: for every sequence of updates merged by `updateResult` for
a single domain, the final `title`, `screenshot` and `favicon` each equal
the value of the last update that explicitly supplied that field (present
and non-`undefined`, empty strings included), and an update in which the
field is absent keeps the existing value; an explicit empty-string value
does overwrite a previously captured non-empty value. -/
theorem updateResult_last_writer_wins (r : DomainResult) (us : List ResultPatch) :
    (applyPatches r us).title = (lastSupplied (fun u => u.title) us).getD r.title ∧
      (applyPatches r us).screenshot =
        (lastSupplied (fun u => u.screenshot) us).getD r.screenshot ∧
      (applyPatches r us).favicon =
        (lastSupplied (fun u => u.favicon.map some) us).getD r.favicon :=
  ⟨applyPatches_last_writer (fun u => u.title) DomainResult.title (fun _ _ => rfl) us r,
    applyPatches_last_writer (fun u => u.screenshot) DomainResult.screenshot
      (fun _ _ => rfl) us r,
    applyPatches_last_writer (fun u => u.favicon.map some) DomainResult.favicon
      (fun r u => by
        simp only [applyPatch]
        cases h : u.favicon <;> simp [h]) us r⟩

/-- The synthetic log entry `recheckDomain` supplies
(`SearchContext.tsx` lines 148-152). -/
def restartingLog (now : Nat) : StatusLog :=
  ⟨now, "Restarting domain check...", LogType.info⟩

/-- The reset patch `recheckDomain` passes to `updateResult`
(`SearchContext.tsx` lines 139-153): `status: 'loading'`, empty
`title`/`screenshot`/`favicon`, `error`/`errorCode`/`responseTime`
explicitly set to `undefined`, a fresh timestamp and a single
"restarting" log entry. -/
def recheckPatch (now : Nat) : ResultPatch :=
  ⟨none, some DomainStatus.loading, some "", some "", some "",
    some now, some [restartingLog now], some none, some none, some none, none⟩

/-- A canonical record that previously failed with `internal_error` and
already holds one log entry. -/
def erroredRecord : DomainResult :=
  ⟨"b.com", "Old", "oldshot", none, DomainStatus.internal_error, 100,
    [⟨100, "Starting domain check...", LogType.info⟩], none,
    some "Internal processing error", some "INTERNAL_ERROR", false⟩

/-- C9 counterexample: `recheckDomain`'s reset goes through
`updateResult`, which always appends `updates.logs` to the existing
history, so after the reset the record holds its old log entry followed
by the "restarting" entry — the log history is not reset to exactly one
entry. -/
theorem recheck_appends_log_history :
    updateResult [erroredRecord] "b.com" (recheckPatch 5000) =
        [{ erroredRecord with
            status := DomainStatus.loading
            title := ""
            screenshot := ""
            favicon := some ""
            timestamp := 5000
            error := none
            errorCode := none
            responseTime := none
            logs := [⟨100, "Starting domain check...", LogType.info⟩, restartingLog 5000] }] ∧
      ((updateResult [erroredRecord] "b.com" (recheckPatch 5000)).headD erroredRecord).logs.length
        = 2 := by
  constructor <;> decide

/-- C9 amended: for every domain with an existing canonical record,
`recheck(domain)` resets that record to status `loading` with `title`,
`screenshot`, `favicon`, `error`, `errorCode` and `responseTime` cleared,
keeps the domain identity (and `isHighPriority`) unchanged, and appends a
single "restarting" entry to the record's existing log history (the
history is not cleared), before re-issuing a single-domain probe request
merged under the same semantics. -/
theorem recheck_resets_record (r : DomainResult) (now : Nat) :
    updateResult [r] r.domain (recheckPatch now) =
      [{ r with
          status := DomainStatus.loading
          title := ""
          screenshot := ""
          favicon := some ""
          timestamp := now
          error := none
          errorCode := none
          responseTime := none
          logs := r.logs ++ [restartingLog now] }] := by
  simp [updateResult, List.findIdx?, applyPatch, recheckPatch]

/-! ## C10: log growth through `addResult` -/

/-- Folding a whole stream of parsed wire lines through `addResult`, as
the search form does for every line of the response. -/
def applyAdds (results : List DomainResult) (now : Nat) (us : List IncomingResult) :
    List DomainResult :=
  us.foldl (fun acc u => addResult acc now u) results

/-- Folding incoming updates through the merge branch of `addResult`. -/
def mergeAll (r : DomainResult) (us : List IncomingResult) : DomainResult :=
  us.foldl mergeIncoming r

/-- Merging preserves the domain key when every update targets it. -/
theorem mergeAll_domain (r : DomainResult) (us : List IncomingResult)
    (h : ∀ u ∈ us, u.domain = r.domain) : (mergeAll r us).domain = r.domain := by
  induction us generalizing r with
  | nil => rfl
  | cons u us ih =>
    have hu : u.domain = r.domain := h u (List.mem_cons_self u us)
    have := ih (mergeIncoming r u)
      (by
        intro v hv
        show v.domain = u.domain
        rw [hu]
        exact h v (List.mem_cons_of_mem u hv))
    simpa [mergeAll, mergeIncoming, hu] using this

/-- On a singleton aggregator state whose record every update targets,
`addResult` reduces to the pure merge fold. -/
theorem applyAdds_singleton (now : Nat) (us : List IncomingResult) (r : DomainResult)
    (h : ∀ u ∈ us, u.domain = r.domain) :
    applyAdds [r] now us = [mergeAll r us] := by
  induction us generalizing r with
  | nil => rfl
  | cons u us ih =>
    have hu : u.domain = r.domain := h u (List.mem_cons_self u us)
    have hfind : List.findIdx? (fun x => x.domain == u.domain) [r] = some 0 := by
      simp [List.findIdx?, hu]
    show applyAdds (addResult [r] now u) now us = _
    rw [show addResult [r] now u = [mergeIncoming r u] by
      simp [addResult, hfind]]
    have hdom : ∀ v ∈ us, v.domain = (mergeIncoming r u).domain := by
      intro v hv
      show v.domain = u.domain
      rw [hu]
      exact h v (List.mem_cons_of_mem u hv)
    rw [ih (mergeIncoming r u) hdom]
    rfl

/-- The merge fold appends every update's log entries in arrival order. -/
theorem mergeAll_logs (r : DomainResult) (us : List IncomingResult) :
    (mergeAll r us).logs = r.logs ++ (us.map fun u => u.logs.getD []).flatten := by
  induction us generalizing r with
  | nil => simp [mergeAll]
  | cons u us ih =>
    show (mergeAll (mergeIncoming r u) us).logs = _
    rw [ih]
    simp [mergeIncoming, List.flatten]

/-- A first wire update that itself carries one log entry. -/
def firstIncoming : IncomingResult :=
  ⟨"c.com", some DomainStatus.loading, some "", some "", none, some 50,
    some [⟨50, "Starting domain check...", LogType.info⟩], none, none, none, some false⟩

/-- C10 counterexample: the creation branch of `addResult` replaces the
first update's own log array (here of size 1) with the single synthetic
"starting" entry, so after N = 1 update with k1 = 1 the record holds
1 log entry, not 1 + k1 = 2. -/
theorem addResult_drops_first_logs :
    applyAdds [] 60 [firstIncoming] = [newRecord 60 firstIncoming] ∧
      ((applyAdds [] 60 [firstIncoming]).headD (newRecord 60 firstIncoming)).logs.length = 1 := by
  constructor <;> decide

/-- C10 amended: for every domain, after the aggregator applies N ≥ 1
updates through `addResult` whose log arrays have sizes k1..kN, the
canonical record's logs list has length 1 + (k2 + ... + kN): the creation
branch replaces the first update's own log array with the synthetic
"starting" entry, and every later update's entries are appended in
arrival order, never deduplicated, reordered, or replaced. -/
theorem addResult_log_growth (now : Nat) (u1 : IncomingResult) (us : List IncomingResult)
    (h : ∀ u ∈ us, u.domain = u1.domain) :
    applyAdds [] now (u1 :: us) = [mergeAll (newRecord now u1) us] ∧
      (mergeAll (newRecord now u1) us).logs =
        startingLog now :: (us.map fun u => u.logs.getD []).flatten ∧
      (mergeAll (newRecord now u1) us).logs.length =
        1 + ((us.map fun u => (u.logs.getD []).length).sum) := by
  have hcreate : addResult [] now u1 = [newRecord now u1] := by
    simp [addResult, List.findIdx?]
  have hdom : ∀ u ∈ us, u.domain = (newRecord now u1).domain := h
  refine ⟨?_, ?_, ?_⟩
  · show applyAdds (addResult [] now u1) now us = _
    rw [hcreate]
    exact applyAdds_singleton now us (newRecord now u1) hdom
  · rw [mergeAll_logs]
    rfl
  · rw [mergeAll_logs]
    simp only [newRecord, List.length_append, List.length_cons, List.length_nil,
      List.length_flatten, List.map_map, Function.comp_def]

/-- A second wire update for the same domain carrying one log entry. -/
def secondIncoming : IncomingResult :=
  { firstIncoming with
      logs := some [⟨61, "Attempting to connect to domain...", LogType.info⟩] }

/-- A third wire update for the same domain carrying two log entries. -/
def thirdIncoming : IncomingResult :=
  { firstIncoming with
      logs := some [⟨62, "Successfully connected to domain", LogType.success⟩,
        ⟨63, "Taking screenshot...", LogType.info⟩] }

/-- Witness for C10: two follow-up updates with 1 and 2 log entries give
a log history of length 1 + (1 + 2) = 4. -/
theorem addResult_log_growth_witness :
    applyAdds [] 60 [firstIncoming, secondIncoming, thirdIncoming] =
        [mergeAll (newRecord 60 firstIncoming) [secondIncoming, thirdIncoming]] ∧
      (mergeAll (newRecord 60 firstIncoming) [secondIncoming, thirdIncoming]).logs.length = 4 := by
  have h := addResult_log_growth 60 firstIncoming [secondIncoming, thirdIncoming]
    (by intro u hu; fin_cases hu <;> rfl)
  exact ⟨h.1, by rw [h.2.2]; rfl⟩

/-! ## C7: client-side timeout sweep -/

/-- The watchdog threshold of the sweep effect
(`SearchContext.tsx` line 261). -/
def timeoutThreshold : Nat := 35000

/-- One record's treatment by the interval sweep
(`SearchContext.tsx` lines 265-284): a `loading` record whose
last-activity timestamp lies strictly more than 35000 ms in the past is
forced to `timeout` with one appended error log; every other record is
returned unchanged.  The subtraction is on JavaScript numbers, hence
modelled on `Int`. -/
def sweepResult (now : Nat) (r : DomainResult) : DomainResult :=
  if r.status = DomainStatus.loading ∧
      (now : Int) - (r.timestamp : Int) > (timeoutThreshold : Int) then
    { r with
        status := DomainStatus.timeout
        error := some "Request timed out after 35 seconds"
        errorCode := some "TIMEOUT"
        logs := r.logs ++ [⟨now, "Request timed out after 35 seconds", LogType.error⟩] }
  else r

/-- One tick of the interval sweep over the whole aggregator state. -/
def sweep (now : Nat) (results : List DomainResult) : List DomainResult :=
  results.map (sweepResult now)

/-- A record still loading whose last activity was at time 0. -/
def staleLoadingRecord : DomainResult :=
  ⟨"d.com", "", "", none, DomainStatus.loading, 0,
    [⟨0, "Starting domain check...", LogType.info⟩], none, none, none, false⟩

/-- C7 counterexample: at a sweep tick exactly 35000 ms after the
record's last activity — i.e. with no update for at least 35 seconds —
the sweep leaves the record in `loading` unchanged, because the code's
condition is strictly greater than 35000 ms. -/
theorem sweep_boundary_not_timed_out :
    staleLoadingRecord.status = DomainStatus.loading ∧
      (35000 : Nat) - staleLoadingRecord.timestamp = 35000 ∧
      sweep 35000 [staleLoadingRecord] = [staleLoadingRecord] := by
  refine ⟨rfl, rfl, ?_⟩
  decide

/-- C7 amended: a record in status `loading` whose last activity lies
strictly more than 35000 ms in the past is forced by the sweep to
`timeout` exactly once, with one appended synthetic error log, and —
carrying status `timeout` rather than `loading` — is left unchanged by
every later sweep tick until an explicit update; records not in
`loading`, or whose age is at most 35000 ms, are left unchanged. -/
theorem sweep_timeout_once (now : Nat) (r : DomainResult) :
    (r.status = DomainStatus.loading →
      (now : Int) - (r.timestamp : Int) > (timeoutThreshold : Int) →
      sweepResult now r =
        { r with
            status := DomainStatus.timeout
            error := some "Request timed out after 35 seconds"
            errorCode := some "TIMEOUT"
            logs := r.logs ++ [⟨now, "Request timed out after 35 seconds", LogType.error⟩] } ∧
        (sweepResult now r).status = DomainStatus.timeout ∧
        (sweepResult now r).logs.length = r.logs.length + 1 ∧
        ∀ later : Nat, sweepResult later (sweepResult now r) = sweepResult now r) ∧
    (r.status ≠ DomainStatus.loading → sweepResult now r = r) ∧
    (¬((now : Int) - (r.timestamp : Int) > (timeoutThreshold : Int)) →
      sweepResult now r = r) := by
  refine ⟨?_, ?_, ?_⟩
  · intro hs ht
    have htrans : sweepResult now r =
        { r with
            status := DomainStatus.timeout
            error := some "Request timed out after 35 seconds"
            errorCode := some "TIMEOUT"
            logs := r.logs ++ [⟨now, "Request timed out after 35 seconds", LogType.error⟩] } := by
      simp [sweepResult, hs, ht]
    refine ⟨htrans, ?_, ?_, ?_⟩
    · rw [htrans]
    · rw [htrans]; simp
    · intro later
      rw [htrans]
      simp [sweepResult]
  · intro hs
    simp [sweepResult, hs]
  · intro ht
    simp [sweepResult, ht]

/-- Witness for C7: one millisecond past the threshold the same record is
forced to `timeout` with one extra log entry, and a later tick leaves it
alone. -/
theorem sweep_timeout_once_witness :
    sweepResult 35001 staleLoadingRecord =
        { staleLoadingRecord with
            status := DomainStatus.timeout
            error := some "Request timed out after 35 seconds"
            errorCode := some "TIMEOUT"
            logs := staleLoadingRecord.logs ++
              [⟨35001, "Request timed out after 35 seconds", LogType.error⟩] } ∧
      sweepResult 99999 (sweepResult 35001 staleLoadingRecord) =
        sweepResult 35001 staleLoadingRecord :=
  have h := (sweep_timeout_once 35001 staleLoadingRecord).1 rfl (by decide)
  ⟨h.1, h.2.2.2 99999⟩

/-! ## C8: filtered-view sort -/

/-- The fixed status priority table of `filteredResults`
(`SearchContext.tsx` lines 223-232).  Every constructor of the status
union appears in the table, so the source's `?? 999` fallback for an
unknown status is unreachable in the typed model. -/
def statusOrder : DomainStatus → Nat
  | DomainStatus.success => 0
  | DomainStatus.loading => 1
  | DomainStatus.timeout => 2
  | DomainStatus.connection_refused => 3
  | DomainStatus.dns_error => 4
  | DomainStatus.ssl_error => 5
  | DomainStatus.invalid_response => 6
  | DomainStatus.internal_error => 7

/-- Lexicographic strict order on char lists. -/
def charListLt : List Char → List Char → Bool
  | [], [] => false
  | [], _ :: _ => true
  | _ :: _, [] => false
  | a :: as, b :: bs => a < b || (a == b && charListLt as bs)

/-- `a.domain.localeCompare(b.domain)` modelled as plain lexicographic
string comparison (domains are ASCII). -/
def localeCompare (a b : String) : Int :=
  if charListLt a.data b.data then -1 else if charListLt b.data a.data then 1 else 0

/-- `charListLt` is asymmetric. -/
theorem charListLt_asymm : ∀ xs ys : List Char,
    charListLt xs ys = true → charListLt ys xs = false := by
  intro xs
  induction xs with
  | nil =>
    intro ys h
    cases ys with
    | nil => exact Bool.noConfusion h
    | cons b bs => rfl
  | cons a as ih =>
    intro ys h
    cases ys with
    | nil => exact Bool.noConfusion h
    | cons b bs =>
      simp only [charListLt, Bool.or_eq_true, Bool.and_eq_true, beq_iff_eq,
        decide_eq_true_eq] at h
      rcases h with h | ⟨hab, h⟩
      · have h1 : decide (b < a) = false := by simp [lt_asymm h]
        have h2 : (b == a) = false := by simp [ne_of_gt h]
        simp [charListLt, h1, h2]
      · subst hab
        have h1 : decide (a < a) = false := by simp
        simp [charListLt, h1, ih bs h]

/-- `localeCompare` is antisymmetric. -/
theorem localeCompare_antisymm (x y : String) :
    localeCompare y x = -(localeCompare x y) := by
  unfold localeCompare
  cases h1 : charListLt x.data y.data <;> cases h2 : charListLt y.data x.data
  · simp
  · simp
  · simp
  · exact absurd (charListLt_asymm x.data y.data h1) (by simp [h2])

/-- JavaScript truthiness of the optional `responseTime` number:
`undefined` and `0` are falsy. -/
def truthyNat : Option Nat → Bool
  | some n => n != 0
  | none => false

/-- The comparator of `filteredResults` (`SearchContext.tsx` lines
221-254), translated branch for branch (the bucket comparison is stated
on the `Nat` table values, which agrees with the source's numeric
`!==`/subtraction).  Note the response-time branch
`return a.responseTime - b.responseTime` returns 0 for equal non-zero
response times, so control never reaches the domain tiebreak there. -/
def compareResults (a b : DomainResult) : Int :=
  if statusOrder a.status ≠ statusOrder b.status then
    (statusOrder a.status : Int) - (statusOrder b.status : Int)
  else if a.status = DomainStatus.success ∧ b.status = DomainStatus.success then
    if a.isHighPriority ≠ b.isHighPriority then (if a.isHighPriority then -1 else 1)
    else if truthyNat a.responseTime && truthyNat b.responseTime then
      (a.responseTime.getD 0 : Int) - (b.responseTime.getD 0 : Int)
    else localeCompare a.domain b.domain
  else localeCompare a.domain b.domain

/-- Stable insertion step: the new element goes after every already
placed element it does not strictly precede, which is the order a stable
sort gives. -/
def insertSorted (x : DomainResult) : List DomainResult → List DomainResult
  | [] => [x]
  | y :: ys => if compareResults x y < 0 then x :: y :: ys else y :: insertSorted x ys

/-- `filtered.sort(comparator)` modelled as a stable sort by the
comparator. -/
def sortResults (rs : List DomainResult) : List DomainResult :=
  rs.foldl (fun acc x => insertSorted x acc) []

/-- Modelled from claim C8's words (not from the source), for comparison
with `compareResults`: keys applied strictly in order — status bucket,
then among success records the high-priority flag, then ascending
response time, then a final tiebreak by lexical domain order. -/
def claimSortCompare (a b : DomainResult) : Int :=
  if statusOrder a.status ≠ statusOrder b.status then
    (statusOrder a.status : Int) - (statusOrder b.status : Int)
  else if a.status = DomainStatus.success ∧ b.status = DomainStatus.success then
    if a.isHighPriority ≠ b.isHighPriority then (if a.isHighPriority then -1 else 1)
    else if a.responseTime.getD 0 ≠ b.responseTime.getD 0 then
      (a.responseTime.getD 0 : Int) - (b.responseTime.getD 0 : Int)
    else localeCompare a.domain b.domain
  else localeCompare a.domain b.domain

/-- Two distinct success records with equal priority and equal non-zero
response times. -/
def successA : DomainResult :=
  ⟨"a.com", "A", "sa", none, DomainStatus.success, 1, [], some 100, none, none, true⟩

/-- Same key prefix as `successA` but a lexically later domain. -/
def successB : DomainResult :=
  ⟨"b.com", "B", "sb", none, DomainStatus.success, 2, [], some 100, none, none, true⟩

/-- C8 counterexample: for two success records of equal priority and
equal non-zero response times the source comparator returns 0 — the
domain tiebreak is never reached — while the claimed key order demands
lexical domain order (a negative comparison here). -/
theorem compareResults_equal_response_tie :
    compareResults successA successB = 0 ∧
      claimSortCompare successA successB = -1 ∧
      successA.domain ≠ successB.domain := by
  refine ⟨?_, ?_, ?_⟩ <;> decide

/-- The five records of the claim's concrete sorting example. -/
def exDns : DomainResult :=
  ⟨"k.dev", "", "", none, DomainStatus.dns_error, 10, [], none,
    some "Domain name could not be resolved", some "DNS_ERROR", false⟩

/-- Success with a high-priority TLD and a 200 ms response. -/
def exHi : DomainResult :=
  ⟨"k.com", "K", "shot1", none, DomainStatus.success, 11, [], some 200, none, none, true⟩

/-- A record still loading. -/
def exLoad : DomainResult :=
  ⟨"k.abc", "", "", none, DomainStatus.loading, 12, [], none, none, none, false⟩

/-- Success with a low-priority TLD and a 100 ms response. -/
def exLo : DomainResult :=
  ⟨"k.foo", "K", "shot2", none, DomainStatus.success, 13, [], some 100, none, none, false⟩

/-- A connection-refused record. -/
def exCr : DomainResult :=
  ⟨"k.net", "", "", none, DomainStatus.connection_refused, 14, [],
    some 30, some "Connection refused by the server", some "CONNECTION_REFUSED", true⟩

/-- C8 amended: the sort comparator orders by status bucket first
(success=0, loading=1, timeout=2, connection_refused=3, dns_error=4,
ssl_error=5, invalid_response=6, internal_error=7); among success records
the high-priority flag sorts true before false; among success records of
equal priority with both response times present and non-zero it compares
ascending response time, returning a tie — not the domain tiebreak — when
they are equal; in every other same-bucket case it falls back to lexical
domain order; the comparator is antisymmetric, and the claim's concrete
example sorts to success(high-priority), success(low-priority), loading,
connection_refused, dns_error. -/
theorem compareResults_spec (a b : DomainResult) :
    (compareResults b a = -(compareResults a b)) ∧
    (statusOrder a.status < statusOrder b.status → compareResults a b < 0) ∧
    (a.status = DomainStatus.success → b.status = DomainStatus.success →
      a.isHighPriority = true → b.isHighPriority = false → compareResults a b = -1) ∧
    (a.status = DomainStatus.success → b.status = DomainStatus.success →
      a.isHighPriority = b.isHighPriority →
      truthyNat a.responseTime = true → truthyNat b.responseTime = true →
      compareResults a b =
        (a.responseTime.getD 0 : Int) - (b.responseTime.getD 0 : Int)) ∧
    (a.status = DomainStatus.success → b.status = DomainStatus.success →
      a.isHighPriority = b.isHighPriority →
      ¬(truthyNat a.responseTime = true ∧ truthyNat b.responseTime = true) →
      compareResults a b = localeCompare a.domain b.domain) ∧
    (statusOrder a.status = statusOrder b.status →
      ¬(a.status = DomainStatus.success ∧ b.status = DomainStatus.success) →
      compareResults a b = localeCompare a.domain b.domain) ∧
    sortResults [exDns, exHi, exLoad, exLo, exCr] = [exHi, exLo, exLoad, exCr, exDns] := by
  refine ⟨?_, ?_, ?_, ?_, ?_, ?_, ?_⟩
  · by_cases h1 : statusOrder a.status = statusOrder b.status
    · by_cases h2 : a.status = DomainStatus.success ∧ b.status = DomainStatus.success
      · obtain ⟨h2a, h2b⟩ := h2
        by_cases h4 : a.isHighPriority = b.isHighPriority
        · cases hta : truthyNat a.responseTime <;> cases htb : truthyNat b.responseTime
          · simp [compareResults, h1, h2a, h2b, h4, hta, htb]
            exact localeCompare_antisymm a.domain b.domain
          · simp [compareResults, h1, h2a, h2b, h4, hta, htb]
            exact localeCompare_antisymm a.domain b.domain
          · simp [compareResults, h1, h2a, h2b, h4, hta, htb]
            exact localeCompare_antisymm a.domain b.domain
          · simp [compareResults, h1, h2a, h2b, h4, hta, htb, neg_sub]
        · cases ha : a.isHighPriority <;> cases hb : b.isHighPriority
          · exact absurd (ha.trans hb.symm) h4
          · simp [compareResults, h1, h2a, h2b, ha, hb]
          · simp [compareResults, h1, h2a, h2b, ha, hb]
          · exact absurd (ha.trans hb.symm) h4
      · have h2' : ¬(b.status = DomainStatus.success ∧ a.status = DomainStatus.success) := by
          intro h; exact h2 ⟨h.2, h.1⟩
        simp [compareResults, h1, h2, h2']
        exact localeCompare_antisymm a.domain b.domain
    · have h1' : statusOrder b.status ≠ statusOrder a.status := fun h => h1 h.symm
      simp [compareResults, h1, h1', neg_sub]
  · intro h
    have h1 : statusOrder a.status ≠ statusOrder b.status := Nat.ne_of_lt h
    simp [compareResults, h1]
    omega
  · intro hsa hsb hpa hpb
    simp [compareResults, statusOrder, hsa, hsb, hpa, hpb]
  · intro hsa hsb hp hta htb
    simp [compareResults, statusOrder, hsa, hsb, hp, hta, htb]
  · intro hsa hsb hp ht
    have ht' : (truthyNat a.responseTime && truthyNat b.responseTime) = false := by
      cases hx : truthyNat a.responseTime <;> cases hy : truthyNat b.responseTime <;>
        simp_all
    simp [compareResults, statusOrder, hsa, hsb, hp, ht']
  · intro h1 h2
    simp [compareResults, h1, h2]
  · decide

/-- Witness for C8: the bucket-dominance and equal-response-time clauses
at concrete records, via the main characterization. -/
theorem compareResults_spec_witness :
    compareResults exHi exLoad < 0 ∧ compareResults successA successB = 0 :=
  ⟨((compareResults_spec exHi exLoad).2.1 (by decide)),
    by
      have h := (compareResults_spec successA successB).2.2.2.1 rfl rfl rfl
        (by decide) (by decide)
      rw [h]
      decide⟩

/-! ## C5 and C6: update stream writer (`sendUpdate` in `route.ts`) -/

/-- `DomainUpdate` from `route.ts` lines 21-31: the wire unit, a partial
patch with every field but `domain` optional. -/
structure WireUpdate where
  domain : String
  status : Option DomainStatus
  title : Option String
  screenshot : Option String
  responseTime : Option Nat
  error : Option String
  errorCode : Option String
  logs : Option (List StatusLog)
  isHighPriority : Option Bool
deriving DecidableEq, Repr

/-- The synthetic log entry of the split status record
(`route.ts` lines 146-150). -/
def processingLog (now : Nat) : StatusLog :=
  ⟨now, "Processing screenshot...", LogType.info⟩

/-- One newline-delimited record on the wire: either a serialized
`DomainUpdate`, or the dedicated screenshot object literal
`{ domain: ..., screenshot: ..., type: 'screenshot' }` modelled as its
ordered key/value list, exactly as the source spells it. -/
inductive WireRecord where
  | statusRec (u : WireUpdate)
  | screenshotRec (fields : List (String × String))
deriving DecidableEq, Repr

/-- JavaScript truthiness of the optional screenshot string:
`undefined` and the empty string are falsy. -/
def truthyStr : Option String → Bool
  | some s => s != ""
  | none => false

/-- `sendUpdate` from `route.ts` lines 134-186.  When `isAborted` is set
it throws `CLIENT_DISCONNECTED` before touching the stream.  When the
stream is already closed (but not aborted) the write rejects, the
rejection is caught and only logged, and nothing reaches the stream.
Otherwise an update with a truthy screenshot is split into a status
record (screenshot cleared, logs replaced by the synthetic "processing"
entry) followed by the screenshot-only record, and any other update is
written as a single record. -/
def sendUpdate (isAborted streamClosed : Bool) (now : Nat) (u : WireUpdate) :
    Except String (List WireRecord) :=
  if isAborted then Except.error "CLIENT_DISCONNECTED"
  else if streamClosed then Except.ok []
  else if truthyStr u.screenshot then
    Except.ok
      [WireRecord.statusRec { u with screenshot := none, logs := some [processingLog now] },
        WireRecord.screenshotRec
          [("domain", u.domain), ("screenshot", u.screenshot.getD ""), ("type", "screenshot")]]
  else Except.ok [WireRecord.statusRec u]

/-- A terminal success update carrying a screenshot payload. -/
def shotUpdate : WireUpdate :=
  ⟨"e.com", some DomainStatus.success, some "Example", some "data:image/jpeg;base64,zz",
    some 150, none, none,
    some [⟨5, "Domain check completed successfully", LogType.success⟩], some true⟩

/-- C5 counterexample: the dedicated screenshot-only record produced by
the writer carries its discriminator under the key `type`, not `kind`:
looking up `kind` in the emitted record finds nothing. -/
theorem sendUpdate_screenshot_field_is_type :
    sendUpdate false false 9 shotUpdate =
        Except.ok
          [WireRecord.statusRec
              { shotUpdate with screenshot := none, logs := some [processingLog 9] },
            WireRecord.screenshotRec
              [("domain", "e.com"), ("screenshot", "data:image/jpeg;base64,zz"),
                ("type", "screenshot")]] ∧
      List.lookup "kind"
          [("domain", "e.com"), ("screenshot", "data:image/jpeg;base64,zz"),
            ("type", "screenshot")] = none ∧
      List.lookup "type"
          [("domain", "e.com"), ("screenshot", "data:image/jpeg;base64,zz"),
            ("type", "screenshot")] = some "screenshot" := by
  refine ⟨rfl, ?_, ?_⟩ <;> decide

/-- C5 amended: for every update passed to the live stream writer that
carries a non-empty screenshot payload, emit produces exactly two
newline-delimited records in order — first a status record equal to the
update with the screenshot field cleared and its logs replaced by a
single synthetic "processing screenshot" log entry, then a dedicated
screenshot-only record `{ domain, screenshot, type: "screenshot" }` (the
discriminator key is named `type`, not `kind`) — and an update without a
screenshot payload produces exactly one record equal to the update. -/
theorem sendUpdate_splits_screenshot (now : Nat) (u : WireUpdate) :
    (∀ s : String, u.screenshot = some s → s ≠ "" →
      sendUpdate false false now u =
        Except.ok
          [WireRecord.statusRec { u with screenshot := none, logs := some [processingLog now] },
            WireRecord.screenshotRec
              [("domain", u.domain), ("screenshot", s), ("type", "screenshot")]]) ∧
    (u.screenshot = none ∨ u.screenshot = some "" →
      sendUpdate false false now u = Except.ok [WireRecord.statusRec u]) := by
  constructor
  · intro s hs hne
    simp [sendUpdate, truthyStr, hs, hne]
  · intro h
    have ht : truthyStr u.screenshot = false := by
      rcases h with h | h <;> simp [truthyStr, h]
    simp [sendUpdate, ht]

/-- Witness for C5: the split at a concrete screenshot-bearing update and
the single record at a concrete screenshot-free update. -/
theorem sendUpdate_splits_screenshot_witness :
    sendUpdate false false 9 shotUpdate =
        Except.ok
          [WireRecord.statusRec
              { shotUpdate with screenshot := none, logs := some [processingLog 9] },
            WireRecord.screenshotRec
              [("domain", "e.com"), ("screenshot", "data:image/jpeg;base64,zz"),
                ("type", "screenshot")]] ∧
      sendUpdate false false 9 { shotUpdate with screenshot := some "" } =
        Except.ok [WireRecord.statusRec { shotUpdate with screenshot := some "" }] :=
  ⟨(sendUpdate_splits_screenshot 9 shotUpdate).1 "data:image/jpeg;base64,zz" rfl (by decide),
    (sendUpdate_splits_screenshot 9 { shotUpdate with screenshot := some "" }).2
      (Or.inr rfl)⟩

/-- C6 counterexample: emit after cancellation is not a silent no-op —
`sendUpdate` raises `CLIENT_DISCONNECTED` to its caller when the abort
flag is set (the task bodies rely on catching exactly this error to stop). -/
theorem sendUpdate_aborted_throws :
    sendUpdate true false 9 shotUpdate = Except.error "CLIENT_DISCONNECTED" ∧
      ∀ rs : List WireRecord, sendUpdate true false 9 shotUpdate ≠ Except.ok rs := by
  refine ⟨rfl, ?_⟩
  intro rs h
  exact Except.noConfusion h

/-- C6 amended: calling emit on the stream writer after cancellation
writes nothing to the stream but raises a `CLIENT_DISCONNECTED` error to
its caller; calling it on a closed (but not cancelled) stream writes
nothing and returns without raising — only the close case is a silent
no-op. -/
theorem sendUpdate_after_cancel_or_close (closed : Bool) (now : Nat) (u : WireUpdate) :
    sendUpdate true closed now u = Except.error "CLIENT_DISCONNECTED" ∧
      sendUpdate false true now u = Except.ok [] := by
  constructor
  · simp [sendUpdate]
  · simp [sendUpdate]

/-! ## C4: browser pool (`getBrowser` / `releaseBrowser` in `route.ts`) -/

/-- `MAX_POOL_SIZE` from `route.ts` line 86. -/
def MAX_POOL_SIZE : Nat := 3

/-- What one `getBrowser` attempt does. -/
inductive AcquireOutcome where
  | reused (b : Nat)
  | created
  | blocked
deriving DecidableEq, Repr

/-- `getBrowser` from `route.ts` lines 89-105, one attempt.  Sessions are
identified by numbers; the stack top (`pop`/`push` end) is modelled at
the head.  `browserPool.pop()` removes the newest pooled browser; when
the pool was empty, the subsequent capacity test reads the length of the
already-emptied pool, so it compares `0 < MAX_POOL_SIZE` and the
wait-and-retry branch is unreachable. -/
def getBrowser (pool : List Nat) : AcquireOutcome × List Nat :=
  match pool with
  | b :: rest => (AcquireOutcome.reused b, rest)
  | [] =>
    if ([] : List Nat).length < MAX_POOL_SIZE then (AcquireOutcome.created, [])
    else (AcquireOutcome.blocked, [])

/-- `releaseBrowser` from `route.ts` lines 107-113: pool the session when
the idle pool is below capacity, otherwise close it.  The boolean reports
whether the session was destroyed. -/
def releaseBrowser (pool : List Nat) (b : Nat) : List Nat × Bool :=
  if pool.length < MAX_POOL_SIZE then (b :: pool, false) else (pool, true)

/-- Whole-system pool state: the idle stack, the number of checked-out
sessions, and the number of live (created and not yet destroyed)
sessions. -/
structure PoolState where
  pool : List Nat
  checkedOut : Nat
  live : Nat
deriving DecidableEq, Repr

/-- One request acquiring a session (each `POST` handler calls
`getBrowser` once). -/
def poolAcquire (s : PoolState) : PoolState :=
  match getBrowser s.pool with
  | (AcquireOutcome.reused _, p) => ⟨p, s.checkedOut + 1, s.live⟩
  | (AcquireOutcome.created, p) => ⟨p, s.checkedOut + 1, s.live + 1⟩
  | (AcquireOutcome.blocked, p) => ⟨p, s.checkedOut, s.live⟩

/-- One request releasing its session. -/
def poolRelease (s : PoolState) (b : Nat) : PoolState :=
  match releaseBrowser s.pool b with
  | (p, destroyed) => ⟨p, s.checkedOut - 1, if destroyed then s.live - 1 else s.live⟩

/-- The pool with no sessions yet. -/
def emptyPool : PoolState := ⟨[], 0, 0⟩

/-- `n` successive acquisitions. -/
def acquireN : Nat → PoolState → PoolState
  | 0, s => s
  | n + 1, s => acquireN n (poolAcquire s)

/-- C4 counterexample: after three concurrent requests have acquired
sessions, the outstanding count (pooled + checked-out) already equals
`MAX_POOL_SIZE`, yet a fourth acquire still takes the create branch —
there is no outstanding-session accounting and no waiting — leaving four
live sessions, which exceeds `MAX_POOL_SIZE`. -/
theorem getBrowser_exceeds_capacity :
    (acquireN 3 emptyPool).pool.length + (acquireN 3 emptyPool).checkedOut = MAX_POOL_SIZE ∧
      (getBrowser (acquireN 3 emptyPool).pool).1 = AcquireOutcome.created ∧
      (acquireN 4 emptyPool).live = 4 ∧
      4 > MAX_POOL_SIZE := by
  refine ⟨?_, ?_, ?_, ?_⟩ <;> decide

/-- C4 amended: `acquire` returns the most recently pooled idle session
when one exists, and otherwise always creates a new session — the pop
empties the pool before the capacity test reads its length, so the
wait-with-backoff branch is unreachable and the total number of live
sessions is not bounded by `MAX_POOL_SIZE`; `release` returns the session
to the idle set when the idle pool is below capacity and otherwise
destroys it, so the number of idle pooled sessions never exceeds
`MAX_POOL_SIZE`. -/
theorem browserPool_spec (pool : List Nat) (b : Nat) :
    ((getBrowser pool).1 ≠ AcquireOutcome.blocked) ∧
    (∀ x rest, pool = x :: rest → getBrowser pool = (AcquireOutcome.reused x, rest)) ∧
    (pool = [] → getBrowser pool = (AcquireOutcome.created, [])) ∧
    (pool.length < MAX_POOL_SIZE → releaseBrowser pool b = (b :: pool, false)) ∧
    (MAX_POOL_SIZE ≤ pool.length → releaseBrowser pool b = (pool, true)) ∧
    ((getBrowser pool).2.length ≤ pool.length) ∧
    (pool.length ≤ MAX_POOL_SIZE → ((releaseBrowser pool b).1).length ≤ MAX_POOL_SIZE) := by
  refine ⟨?_, ?_, ?_, ?_, ?_, ?_, ?_⟩
  · cases pool <;> simp [getBrowser, MAX_POOL_SIZE]
  · intro x rest h
    subst h
    rfl
  · intro h
    subst h
    rfl
  · intro h
    simp [releaseBrowser, h]
  · intro h
    simp [releaseBrowser, Nat.not_lt_of_le h]
  · cases pool <;> simp [getBrowser, MAX_POOL_SIZE]
  · intro h
    by_cases hlt : pool.length < MAX_POOL_SIZE
    · simp [releaseBrowser, hlt]
      omega
    · simp [releaseBrowser, hlt]
      omega

/-- Witness for C4: the release clauses at a full and a non-full pool. -/
theorem browserPool_spec_witness :
    releaseBrowser [7] 9 = ([9, 7], false) ∧
      releaseBrowser [4, 5, 6] 9 = ([4, 5, 6], true) :=
  ⟨(browserPool_spec [7] 9).2.2.2.1 (by decide),
    (browserPool_spec [4, 5, 6] 9).2.2.2.2.1 (by decide)⟩

/-! ## C3: task scheduler (`processNextDomain` in `route.ts`)

The keyword run is modelled as a labelled transition system.  JavaScript
is single-threaded: each invocation of `processNextDomain` runs
synchronously from its guard through `currentTldIndex++`/`activeTasks++`
up to its first `await`, and each completion continuation (the terminal
update, `activeTasks--` and the replenishment call) likewise runs
atomically.  The events below are exactly those atomic blocks.  Early
`return`s inside the `try` skip `activeTasks--` (there is no `finally`),
which the leak and abort events reproduce. -/

/-- `MAX_CONCURRENT_PAGES` from `route.ts` line 87 (the spec calls it
`MAX_CONCURRENT_TASKS`). -/
def MAX_CONCURRENT_PAGES : Nat := 20

/-- Scheduler state for a keyword run: the active-task counter, the work
cursor into the TLD list, the indices of in-flight tasks, the terminal
status recorded for each generated domain index, and the abort flag. -/
structure SchedState where
  activeTasks : Nat
  currentTldIndex : Nat
  running : List Nat
  statuses : Nat → Option DomainStatus
  aborted : Bool

/-- The synchronous prefix of `processNextDomain` (`route.ts` lines
188-193): bail out when aborted or the TLD list is exhausted, otherwise
claim the next domain index and increment the active-task counter. -/
def startTask (total : Nat) (s : SchedState) : SchedState :=
  if s.aborted = true ∨ total ≤ s.currentTldIndex then s
  else
    { s with
        activeTasks := s.activeTasks + 1
        currentTldIndex := s.currentTldIndex + 1
        running := s.currentTldIndex :: s.running }

/-- Point update of the status table. -/
def setStatus (f : Nat → Option DomainStatus) (i : Nat) (t : DomainStatus) :
    Nat → Option DomainStatus :=
  fun j => if j = i then some t else f j

/-- The replenishment step at the end of `processNextDomain` (`route.ts`
line 383): `if (!isAborted && activeTasks < MAX_CONCURRENT_PAGES &&
!singleDomain) processNextDomain()`; on a keyword run `singleDomain` is
absent, and the recursive call's synchronous prefix is `startTask`. -/
def replenish (total : Nat) (s : SchedState) : SchedState :=
  if s.aborted = false ∧ s.activeTasks < MAX_CONCURRENT_PAGES then startTask total s else s

/-- Normal completion of in-flight task `i` with terminal status `t`:
record the status, decrement the counter, and replenish. -/
def completeTask (total : Nat) (s : SchedState) (i : Nat) (t : DomainStatus) : SchedState :=
  replenish total
    { s with
        activeTasks := s.activeTasks - 1
        running := s.running.erase i
        statuses := setStatus s.statuses i t }

/-- One atomic scheduler event of a keyword run. -/
inductive Step (total : Nat) : SchedState → SchedState → Prop where
  /-- A task finishes its protocol and emits a terminal (non-`loading`)
  status, then decrements the counter and replenishes
  (`route.ts` lines 311-323, 331-345, 367-378 and 382-385). -/
  | complete (s : SchedState) (i : Nat) (t : DomainStatus) :
      s.aborted = false → i ∈ s.running → t ≠ DomainStatus.loading →
      Step total s (completeTask total s i t)
  /-- The screenshot-failure path (`route.ts` lines 292-309): the task
  emits `invalid_response`/`SCREENSHOT_FAILED` and then `return`s from
  inside the `try`, skipping both `activeTasks--` and replenishment. -/
  | completeLeak (s : SchedState) (i : Nat) :
      s.aborted = false → i ∈ s.running →
      Step total s
        { s with
            running := s.running.erase i
            statuses := setStatus s.statuses i DomainStatus.invalid_response }
  /-- A task dying after the abort flag is set: no status is recorded and
  no replenishment happens; depending on which checkpoint the task
  reaches, `activeTasks--` may (`dec = true`, the swallowed-rejection
  paths) or may not (`dec = false`, the early `return`s) run. -/
  | completeDead (s : SchedState) (i : Nat) (dec : Bool) :
      s.aborted = true → i ∈ s.running →
      Step total s
        { s with
            running := s.running.erase i
            activeTasks := if dec then s.activeTasks - 1 else s.activeTasks }
  /-- The client disconnects (`route.ts` lines 124-129). -/
  | abort (s : SchedState) :
      Step total s { s with aborted := true }

/-- State before the handler starts any task. -/
def initialState : SchedState := ⟨0, 0, [], fun _ => none, false⟩

/-- The initial `for` loop (`route.ts` lines 391-393): `n` synchronous
invocations of `processNextDomain`'s prefix. -/
def spawnLoop (total : Nat) : Nat → SchedState → SchedState
  | 0, s => s
  | n + 1, s => spawnLoop total n (startTask total s)

/-- Scheduler state right after the initial spawn loop. -/
def initSched (total : Nat) : SchedState :=
  spawnLoop total MAX_CONCURRENT_PAGES initialState

/-- States a keyword run over `total` TLDs can reach. -/
def Reachable (total : Nat) (s : SchedState) : Prop :=
  Relation.ReflTransGen (Step total) (initSched total) s

/-- The scheduler invariant, minus the concurrency bound. -/
structure SchedCore (total : Nat) (s : SchedState) : Prop where
  nodup : s.running.Nodup
  run_lt : ∀ i ∈ s.running, i < s.currentTldIndex
  run_none : ∀ i ∈ s.running, s.statuses i = none
  len_le : s.running.length ≤ s.activeTasks
  idx_le : s.currentTldIndex ≤ total
  high_none : ∀ i, s.currentTldIndex ≤ i → s.statuses i = none
  done : s.aborted = false → ∀ i, i < s.currentTldIndex → i ∉ s.running →
    ∃ t, s.statuses i = some t ∧ t ≠ DomainStatus.loading

/-- The full scheduler invariant. -/
structure SchedInv (total : Nat) (s : SchedState) extends SchedCore total s : Prop where
  act_le : s.activeTasks ≤ MAX_CONCURRENT_PAGES

/-- `startTask` preserves the core invariant and raises the counter by at
most one. -/
theorem startTask_core {total : Nat} {s : SchedState} (h : SchedCore total s) :
    SchedCore total (startTask total s) ∧
      (startTask total s).activeTasks ≤ s.activeTasks + 1 := by
  unfold startTask
  by_cases hg : s.aborted = true ∨ total ≤ s.currentTldIndex
  · simp only [if_pos hg]
    exact ⟨h, Nat.le_succ _⟩
  · simp only [if_neg hg]
    push_neg at hg
    obtain ⟨hab, hidx⟩ := hg
    refine ⟨⟨?_, ?_, ?_, ?_, ?_, ?_, ?_⟩, le_refl _⟩
    · exact List.Nodup.cons (fun hmem => lt_irrefl _ (h.run_lt _ hmem)) h.nodup
    · intro i hi
      rcases List.mem_cons.mp hi with rfl | hi
      · exact Nat.lt_succ_self _
      · exact Nat.lt_succ_of_lt (h.run_lt i hi)
    · intro i hi
      rcases List.mem_cons.mp hi with rfl | hi
      · exact h.high_none _ (le_refl _)
      · exact h.run_none i hi
    · simpa using Nat.succ_le_succ h.len_le
    · exact hidx
    · intro i hi
      exact h.high_none i (Nat.le_of_succ_le hi)
    · intro hab' i hlt hnot
      have hne : i ≠ s.currentTldIndex := fun hEq => hnot (hEq ▸ List.mem_cons_self _ _)
      have hlt' : i < s.currentTldIndex := by
        rcases Nat.lt_succ_iff_lt_or_eq.mp hlt with h' | h'
        · exact h'
        · exact absurd h' hne
      exact h.done hab' i hlt' (fun hmem => hnot (List.mem_cons_of_mem _ hmem))

/-- The spawn loop preserves the core invariant and raises the counter by
at most its iteration count. -/
theorem spawnLoop_core (total : Nat) :
    ∀ (n : Nat) (s : SchedState), SchedCore total s →
      SchedCore total (spawnLoop total n s) ∧
        (spawnLoop total n s).activeTasks ≤ s.activeTasks + n := by
  intro n
  induction n with
  | zero => intro s h; exact ⟨h, le_refl _⟩
  | succ n ih =>
    intro s h
    have h1 := startTask_core h
    have h2 := ih (startTask total s) h1.1
    refine ⟨h2.1, le_trans h2.2 ?_⟩
    omega

/-- The initial state after the spawn loop satisfies the invariant. -/
theorem initSched_inv (total : Nat) : SchedInv total (initSched total) := by
  have hcore : SchedCore total initialState := by
    refine ⟨List.nodup_nil, ?_, ?_, ?_, ?_, ?_, ?_⟩
    · intro i hi; cases hi
    · intro i hi; cases hi
    · exact le_refl _
    · exact Nat.zero_le _
    · intro i _; rfl
    · intro _ i hlt _; cases hlt
  have h := spawnLoop_core total MAX_CONCURRENT_PAGES initialState hcore
  exact { toSchedCore := h.1, act_le := by simpa [initialState] using h.2 }

/-- `replenish` preserves the full invariant (the counter test guards the
recursive spawn). -/
theorem replenish_inv {total : Nat} {s : SchedState} (h : SchedInv total s) :
    SchedInv total (replenish total s) := by
  unfold replenish
  by_cases hc : s.aborted = false ∧ s.activeTasks < MAX_CONCURRENT_PAGES
  · simp only [if_pos hc]
    have h1 := startTask_core h.toSchedCore
    exact { toSchedCore := h1.1, act_le := le_trans h1.2 hc.2 }
  · simp only [if_neg hc]
    exact h

/-- Every scheduler event preserves the full invariant. -/
theorem step_inv {total : Nat} {s s' : SchedState} (h : SchedInv total s)
    (hs : Step total s s') : SchedInv total s' := by
  cases hs with
  | complete i t hab hmem ht =>
    apply replenish_inv
    refine { toSchedCore := ⟨?_, ?_, ?_, ?_, ?_, ?_, ?_⟩, act_le := ?_ }
    · exact h.nodup.erase i
    · intro j hj
      exact h.run_lt j (List.mem_of_mem_erase hj)
    · intro j hj
      have hj' := (h.nodup.mem_erase_iff).mp hj
      show setStatus s.statuses i t j = none
      unfold setStatus
      rw [if_neg hj'.1]
      exact h.run_none j hj'.2
    · show (s.running.erase i).length ≤ s.activeTasks - 1
      rw [List.length_erase_of_mem hmem]
      exact Nat.sub_le_sub_right h.len_le 1
    · exact h.idx_le
    · intro j hj
      have hj2 : s.currentTldIndex ≤ j := hj
      show setStatus s.statuses i t j = none
      unfold setStatus
      have hilt : i < s.currentTldIndex := h.run_lt i hmem
      rw [if_neg (by omega : j ≠ i)]
      exact h.high_none j hj2
    · intro hab' j hjlt hjnot
      by_cases hji : j = i
      · subst hji
        exact ⟨t, by simp [setStatus], ht⟩
      · have hjrun : j ∉ s.running := by
          intro hmem'
          exact hjnot ((h.nodup.mem_erase_iff).mpr ⟨hji, hmem'⟩)
        obtain ⟨t', ht', htl⟩ := h.done hab' j hjlt hjrun
        exact ⟨t', by simpa [setStatus, hji] using ht', htl⟩
    · exact le_trans (Nat.sub_le _ _) h.act_le
  | completeLeak i hab hmem =>
    refine { toSchedCore := ⟨?_, ?_, ?_, ?_, ?_, ?_, ?_⟩, act_le := h.act_le }
    · exact h.nodup.erase i
    · intro j hj
      exact h.run_lt j (List.mem_of_mem_erase hj)
    · intro j hj
      have hj' := (h.nodup.mem_erase_iff).mp hj
      show setStatus s.statuses i DomainStatus.invalid_response j = none
      unfold setStatus
      rw [if_neg hj'.1]
      exact h.run_none j hj'.2
    · exact le_trans (List.length_erase_le _ _) h.len_le
    · exact h.idx_le
    · intro j hj
      have hj2 : s.currentTldIndex ≤ j := hj
      show setStatus s.statuses i DomainStatus.invalid_response j = none
      unfold setStatus
      have hilt : i < s.currentTldIndex := h.run_lt i hmem
      rw [if_neg (by omega : j ≠ i)]
      exact h.high_none j hj2
    · intro hab' j hjlt hjnot
      by_cases hji : j = i
      · subst hji
        exact ⟨DomainStatus.invalid_response, by simp [setStatus], by simp⟩
      · have hjrun : j ∉ s.running := by
          intro hmem'
          exact hjnot ((h.nodup.mem_erase_iff).mpr ⟨hji, hmem'⟩)
        obtain ⟨t', ht', htl⟩ := h.done hab' j hjlt hjrun
        exact ⟨t', by simpa [setStatus, hji] using ht', htl⟩
  | completeDead i dec hab hmem =>
    refine { toSchedCore := ⟨?_, ?_, ?_, ?_, ?_, ?_, ?_⟩, act_le := ?_ }
    · exact h.nodup.erase i
    · intro j hj
      exact h.run_lt j (List.mem_of_mem_erase hj)
    · intro j hj
      exact h.run_none j (List.mem_of_mem_erase hj)
    · show (s.running.erase i).length ≤ _
      rw [List.length_erase_of_mem hmem]
      have h1 : 1 ≤ s.running.length := List.length_pos_of_mem hmem
      have h2 := h.len_le
      cases dec with
      | false => simpa using Nat.le_trans (Nat.sub_le _ _) h2
      | true =>
        simp only [if_true]
        omega
    · exact h.idx_le
    · intro j hj
      exact h.high_none j hj
    · intro hab'
      have hcontr : s.aborted = false := hab'
      rw [hab] at hcontr
      cases hcontr
    · cases dec with
      | false => simpa using h.act_le
      | true => simpa using le_trans (Nat.sub_le _ _) h.act_le
  | abort =>
    refine { toSchedCore := ⟨h.nodup, h.run_lt, h.run_none, h.len_le, h.idx_le,
        h.high_none, ?_⟩, act_le := h.act_le }
    intro hab'
    cases hab'

/-- Every reachable state of a keyword run satisfies the invariant. -/
theorem reachable_inv (total : Nat) (s : SchedState) (h : Reachable total s) :
    SchedInv total s := by
  induction h with
  | refl => exact initSched_inv total
  | tail _ hstep ih => exact step_inv ih hstep

/-- Each event advances the work cursor by at most one: a completing task
starts at most one next pending task. -/
theorem step_idx {total : Nat} {s s' : SchedState} (hs : Step total s s') :
    s'.currentTldIndex ≤ s.currentTldIndex + 1 := by
  cases hs with
  | complete i t hab hmem ht =>
    show (replenish total _).currentTldIndex ≤ _
    unfold replenish startTask
    split
    · split
      · simp
      · simp
    · simp
  | completeLeak i hab hmem => exact Nat.le_succ _
  | completeDead i dec hab hmem => exact Nat.le_succ _
  | abort => exact Nat.le_succ _

/-- A recorded status is never overwritten by a later event. -/
theorem step_status_mono {total : Nat} {s s' : SchedState} (h : SchedInv total s)
    (hs : Step total s s') :
    ∀ i t, s.statuses i = some t → s'.statuses i = some t := by
  intro i t hi
  cases hs with
  | complete j t' hab hmem ht =>
    show (replenish total _).statuses i = some t
    have hrep : ∀ u : SchedState, (replenish total u).statuses = u.statuses := by
      intro u
      unfold replenish startTask
      split
      · split
        · rfl
        · rfl
      · rfl
    rw [hrep]
    show setStatus s.statuses j t' i = some t
    unfold setStatus
    have hji : i ≠ j := by
      intro hEq
      subst hEq
      rw [h.run_none i hmem] at hi
      cases hi
    rw [if_neg hji]
    exact hi
  | completeLeak j hab hmem =>
    show setStatus s.statuses j DomainStatus.invalid_response i = some t
    unfold setStatus
    have hji : i ≠ j := by
      intro hEq
      subst hEq
      rw [h.run_none i hmem] at hi
      cases hi
    rw [if_neg hji]
    exact hi
  | completeDead j dec hab hmem => exact hi
  | abort => exact hi

/-- C3: for every keyword run of the scheduler, at every reachable point
of the execution at most `MAX_CONCURRENT_PAGES` (20) tasks are
simultaneously running (the active-task counter never exceeds 20); each
event — in particular each completing task — starts at most one next
pending task and never overwrites a recorded status; and when the run
completes (the counter is zero, the work source is exhausted and the run
was not cancelled) every generated domain index has been assigned exactly
one terminal (non-`loading`) status. -/
theorem scheduler_spec (total : Nat) (s : SchedState) (h : Reachable total s) :
    s.activeTasks ≤ MAX_CONCURRENT_PAGES ∧
    (∀ s', Step total s s' →
      s'.currentTldIndex ≤ s.currentTldIndex + 1 ∧
      ∀ i t, s.statuses i = some t → s'.statuses i = some t) ∧
    (s.aborted = false → s.activeTasks = 0 → total ≤ s.currentTldIndex →
      ∀ i, i < total → ∃ t, s.statuses i = some t ∧ t ≠ DomainStatus.loading) := by
  have hi := reachable_inv total s h
  refine ⟨hi.act_le, ?_, ?_⟩
  · intro s' hs
    exact ⟨step_idx hs, step_status_mono hi hs⟩
  · intro hab hact htot i hitot
    have hrun : s.running = [] := by
      have hlen := hi.len_le
      rw [hact] at hlen
      exact List.eq_nil_of_length_eq_zero (Nat.le_zero.mp hlen)
    have hlt : i < s.currentTldIndex := lt_of_lt_of_le hitot htot
    exact hi.done hab i hlt (by simp [hrun])

/-- Witness for C3: the freshly spawned run over 500 domains is reachable
and respects the concurrency ceiling. -/
theorem scheduler_spec_witness :
    (initSched 500).activeTasks ≤ MAX_CONCURRENT_PAGES :=
  (scheduler_spec 500 (initSched 500) Relation.ReflTransGen.refl).1

end WebsiteFinder
